import Mathlib

/-!
Verification of the MAGI/SYBIL orchestration engine
(`src/unnamed/part_003`, the `ai-cores` server module).

The engine is shallowly embedded: every network call (model generation,
judge call, synthesis call) is represented by an oracle function giving
that call's outcome per attempt, so the deterministic control flow of
`generateAndValidateCore`, the sybil retry loop and
`fullMAGISybilAnalysis` becomes a pure Lean function of the oracles.
JavaScript's loosely-typed JSON values are modelled by `JVal`, with JS
truthiness, property lookup, property assignment and `Array.join`
translated explicitly.
-/

set_option maxRecDepth 4000

namespace MagiSybil

/-- A parsed JSON value as JavaScript sees it (`null`, booleans, numbers,
strings, arrays, objects).  Numbers are modelled as integers; every value
the engine inspects numerically is an integer in all claims. -/
inductive JVal where
  | null : JVal
  | bool (b : Bool) : JVal
  | num (n : Int) : JVal
  | str (s : String) : JVal
  | arr (elems : List JVal) : JVal
  | obj (fields : List (String × JVal)) : JVal

/-- JS property read `j[k]`: `none` models `undefined` (absent key or
non-object receiver). -/
def getField (j : JVal) (k : String) : Option JVal :=
  match j with
  | .obj fields => fields.lookup k
  | _ => none

/-- Replace the binding of `k` in an association list (JS property
assignment keeps the key's position; appends when absent). -/
def setFieldList (l : List (String × JVal)) (k : String) (v : JVal) :
    List (String × JVal) :=
  match l with
  | [] => [(k, v)]
  | (k', v') :: rest =>
      if k' = k then (k, v) :: rest else (k', v') :: setFieldList rest k v

/-- JS property assignment `j[k] = v` (only ever reached on objects in the
source; other receivers are left unchanged). -/
def setField (j : JVal) (k : String) (v : JVal) : JVal :=
  match j with
  | .obj fields => .obj (setFieldList fields k v)
  | other => other

/-- JS truthiness of a value. -/
def truthy : JVal → Bool
  | .null => false
  | .bool b => b
  | .num n => n != 0
  | .str s => s ≠ ""
  | .arr _ => true
  | .obj _ => true

/-- JS truthiness of a possibly-`undefined` value. -/
def truthyOpt : Option JVal → Bool
  | none => false
  | some j => truthy j

mutual
/-- How `Array.prototype.join` renders one element (`null`/`undefined`
render as the empty string, arrays flatten with commas, objects as
`[object Object]`). -/
def joinVal : JVal → String
  | .null => ""
  | .bool b => if b then "true" else "false"
  | .num n => toString n
  | .str s => s
  | .arr xs => joinValList xs
  | .obj _ => "[object Object]"

/-- JS `Array.prototype.join(",")` over a list of values. -/
def joinValList : List JVal → String
  | [] => ""
  | [x] => joinVal x
  | x :: y :: xs => joinVal x ++ "," ++ joinValList (y :: xs)
end

/-- JS `String(v)` / template-literal interpolation: identical to the
`join` rendering except that a top-level `null` renders as `"null"`. -/
def jsString (v : JVal) : String :=
  match v with
  | .null => "null"
  | v => joinVal v

/-- JS `issues.join('; ')` as used in the source's error strings. -/
def joinIssues (issues : List JVal) : String :=
  String.intercalate "; " (issues.map joinVal)

/-- Constant `MAX_RETRIES` (part_003 line 26): max regeneration attempts per core. -/
def MAX_RETRIES : Nat := 2

/-- The parsed shape of a judge reply after the source's coercions
(`pass: !!result.pass`, `issues: Array.isArray(...) ? ... : []`,
`feedback: typeof ... === 'string' ? ... : ''`). -/
structure ValidationResult where
  pass : Bool
  issues : List JVal
  feedback : String

/-- The coercions applied to a successfully parsed judge reply
(part_003 lines 277-282 and 389-394). -/
def parseValidation (j : JVal) : ValidationResult :=
  { pass := truthyOpt (getField j "pass")
    issues := match getField j "issues" with
      | some (.arr xs) => xs
      | _ => []
    feedback := match getField j "feedback" with
      | some (.str s) => s
      | _ => "" }

/-- Kernel-reducible form of `coreName.toLowerCase()`. -/
def lowerStr (s : String) : String := String.mk (s.data.map Char.toLower)

/-- Kernel-reducible form of `text.startsWith(c)` for a single character,
modelling the source's offline-marker test `lastOutput.startsWith('[')`. -/
def firstCharIs (c : Char) (s : String) : Bool := s.data.head? = some c

/-- The lookup `VALIDATOR_PROMPTS[coreName.toLowerCase()]` is defined exactly for the
three MAGI cores (part_003 lines 57-108, 256). -/
def hasValidatorPrompt (coreName : String) : Bool :=
  ["casper", "balthasar", "melchior"].contains (lowerStr coreName)

/-- Function `validateCoreOutput` (part_003 lines 251-288), with the judge call
outcome abstracted as `reply`: `.error ()` models any transport failure,
timeout or unparseable reply (the whole `try` block throwing), `.ok j`
a reply that parsed as the JSON value `j`.  A missing validator prompt or
a failed judge call both fall through to an automatic pass. -/
def validateCoreOutput (coreName : String) (reply : Except Unit JVal) :
    ValidationResult :=
  if hasValidatorPrompt coreName then
    match reply with
    | .error _ => { pass := true, issues := [], feedback := "" }
    | .ok j => parseValidation j
  else { pass := true, issues := [], feedback := "" }

/-- Function `validateSybilOutput` (part_003 lines 366-399): same parse/coerce and
fail-open behaviour, no prompt lookup. -/
def validateSybilOutput (reply : Except Unit JVal) : ValidationResult :=
  match reply with
  | .error _ => { pass := true, issues := [], feedback := "" }
  | .ok j => parseValidation j

/-- The feedback argument handed to `generateFn`
(`attempt > 0 ? lastFeedback : undefined`, part_003 line 311). -/
def fbArg (attempt : Nat) (lastFeedback : String) : Option String :=
  if attempt > 0 then some lastFeedback else none

/-- The record returned by `generateAndValidateCore`
(`{ result, attempts, error? }`). -/
structure CoreOutcome where
  result : String
  attempts : Nat
  error : Option String
deriving DecidableEq

/-- JS `err?.message || 'Unknown error'` (part_003 line 344). -/
def errMsgOr (msg : String) : String :=
  if msg = "" then "Unknown error" else msg

/-- The loop body of `generateAndValidateCore` (part_003 lines 305-362).
`fuel` counts the remaining iterations of
`for (attempt = 0; attempt <= MAX_RETRIES; attempt++)`; the `fuel = 0`
case is the source's post-loop safety fallback (lines 357-362).
`gen attempt fb` is the outcome of
`withTimeout(() => generateFn(fb), CORE_TIMEOUT_MS, ...)`:
`.error msg` a thrown timeout/transport error, `.ok text` the returned
text.  `judge attempt` is the judge-call outcome consumed by
`validateCoreOutput`. -/
def generateAndValidateCoreAux (coreName : String)
    (gen : Nat → Option String → Except String String)
    (judge : Nat → Except Unit JVal) :
    Nat → Nat → Nat → String → String → CoreOutcome
  | 0, _attempt, attempts, lastOutput, _lastFeedback =>
      { result := if lastOutput = "" then
          "[" ++ coreName ++ " OFFLINE] — Core unavailable." else lastOutput
        attempts := attempts
        error := some (coreName ++ " exhausted all attempts") }
  | fuel + 1, attempt, _attempts, lastOutput, lastFeedback =>
      let attempts := attempt + 1
      match gen attempt (fbArg attempt lastFeedback) with
      | .error msg =>
          if attempt = MAX_RETRIES then
            { result := if lastOutput = "" then
                "[" ++ coreName ++ " OFFLINE] — Core unavailable after " ++
                  toString attempts ++ " attempts. Error: " ++ msg
              else lastOutput
              attempts := attempts
              error := some (coreName ++ " failed on attempt " ++
                toString attempts ++ ": " ++ errMsgOr msg) }
          else
            generateAndValidateCoreAux coreName gen judge fuel (attempt + 1)
              attempts lastOutput lastFeedback
      | .ok text =>
          if firstCharIs '[' text then
            { result := text, attempts := attempts
              error := some (coreName ++ " returned offline marker") }
          else
            let v := validateCoreOutput coreName (judge attempt)
            if v.pass then
              { result := text, attempts := attempts, error := none }
            else if attempt = MAX_RETRIES then
              { result := text, attempts := attempts
                error := some (coreName ++ " used after " ++ toString attempts ++
                  " attempts (last issues: " ++ joinIssues v.issues ++ ")") }
            else
              generateAndValidateCoreAux coreName gen judge fuel (attempt + 1)
                attempts text v.feedback

/-- Function `generateAndValidateCore` (part_003 lines 296-363): run the
generate → validate → retry loop from attempt 0 with empty state. -/
def generateAndValidateCore (coreName : String)
    (gen : Nat → Option String → Except String String)
    (judge : Nat → Except Unit JVal) : CoreOutcome :=
  generateAndValidateCoreAux coreName gen judge (MAX_RETRIES + 1) 0 0 "" ""

/-- JS `res.choices[0]?.message?.content || placeholder` (part_003 lines 476,
500, 524): an absent or empty model reply is replaced by the core's
bracketed placeholder text. -/
def coreReplyText (placeholder : String) (content : Option String) : String :=
  match content with
  | none => placeholder
  | some s => if s = "" then placeholder else s

/-- The color expected from a safety coefficient (part_003 lines 597-598):
`coeff >= 75 ? 'green' : coeff >= 50 ? 'yellow' : coeff >= 25 ? 'orange'
: 'red'`. -/
def expectedColor (coeff : Int) : String :=
  if coeff ≥ 75 then "green"
  else if coeff ≥ 50 then "yellow"
  else if coeff ≥ 25 then "orange"
  else "red"

/-- Constant `FALLBACK_SYBIL` (part_003 lines 401-409) as the parsed JSON object it
denotes. -/
def FALLBACK_SYBIL : JVal :=
  .obj [("safetyCoefficient", .num 50),
        ("escalationRisk24h", .num 50),
        ("dominantThreat", .str "Synthesis error — manual review required"),
        ("psychoPassColor", .str "yellow"),
        ("executiveSummary", .str "The Sybil synthesis core encountered a parsing error. Individual MAGI core outputs are still available for manual review. Proceed with caution."),
        ("scenarios", .arr []),
        ("finalVerdict", .str "Manual assessment recommended. Core outputs available above.")]

/-- The structural validation, color auto-correction and scenarios
coercion applied to a parsed synthesis reply (part_003 lines 588-605).
`.error msg` models the `throw new Error(msg)` paths; on success the
returned value is the (possibly mutated) `sybilData` object.  A
non-object reply is modelled as having no fields, so it fails the first
check exactly as the source's property access does (for a parsed `null`
root JS would throw a `TypeError` instead, reaching the same catch with a
different message — no behaviour this development reasons about depends
on that message). -/
def sybilStructAndCorrect (j : JVal) : Except String JVal :=
  match getField j "safetyCoefficient" with
  | some (.num coeff) =>
      match getField j "psychoPassColor" with
      | none => .error "Missing psychoPassColor"
      | some c =>
          if truthy c then
            match c with
            | .str s =>
                if ["green", "yellow", "orange", "red"].contains s then
                  let corrected :=
                    if s = expectedColor coeff then j
                    else setField j "psychoPassColor" (.str (expectedColor coeff))
                  let withScenarios :=
                    match getField corrected "scenarios" with
                    | some (.arr _) => corrected
                    | _ => setField corrected "scenarios" (.arr [])
                  .ok withScenarios
                else .error ("Invalid psychoPassColor: " ++ s)
            | other => .error ("Invalid psychoPassColor: " ++ jsString other)
          else .error "Missing psychoPassColor"
  | _ => .error "Missing safetyCoefficient"

/-- The sybil retry loop body (part_003 lines 557-631).  `fuel` counts the
remaining iterations of `for (sybilAttempt = 0; sybilAttempt <=
MAX_RETRIES; sybilAttempt++)`; the `fuel = 0` case is the loop running
off its end, leaving `sybilData` at its current value and adding no
error.  `gen attempt` is the outcome of the synthesis call followed by
`extractJSON`: `.error msg` a thrown timeout/transport/parse error (before
`sybilData` is reassigned), `.ok j` the parsed JSON value assigned to
`sybilData`.  `judge attempt` is the sybil-validator call outcome.
Returns the final `sybilData` together with the error strings the loop
pushed. -/
def sybilLoopAux (gen : Nat → Except String JVal)
    (judge : Nat → Except Unit JVal) :
    Nat → Nat → JVal → JVal × List String
  | 0, _attempt, current => (current, [])
  | fuel + 1, attempt, current =>
      match gen attempt with
      | .error msg =>
          if attempt = MAX_RETRIES then
            (FALLBACK_SYBIL,
             ["Sybil synthesis error after " ++ toString (attempt + 1) ++
              " attempts: " ++ msg])
          else sybilLoopAux gen judge fuel (attempt + 1) current
      | .ok j =>
          match sybilStructAndCorrect j with
          | .error msg =>
              if attempt = MAX_RETRIES then
                (FALLBACK_SYBIL,
                 ["Sybil synthesis error after " ++ toString (attempt + 1) ++
                  " attempts: " ++ msg])
              else sybilLoopAux gen judge fuel (attempt + 1) j
          | .ok j' =>
              let v := validateSybilOutput (judge attempt)
              if v.pass then (j', [])
              else if attempt = MAX_RETRIES then
                (j', ["Sybil synthesis used after " ++ toString (attempt + 1) ++
                      " attempts (issues: " ++ joinIssues v.issues ++ ")"])
              else sybilLoopAux gen judge fuel (attempt + 1) j'

/-- The sybil retry loop from attempt 0: `sybilData` starts at
`FALLBACK_SYBIL` (part_003 line 555). -/
def sybilLoop (gen : Nat → Except String JVal)
    (judge : Nat → Except Unit JVal) : JVal × List String :=
  sybilLoopAux gen judge (MAX_RETRIES + 1) 0 FALLBACK_SYBIL

/-- Sub-field `envContext.fires` (part_003 line 413). -/
structure FiresCtx where
  totalPoints : Int
  groups : Int
  highestFrp : Option Int
  summary : String

/-- Sub-field `envContext.airQuality` (part_003 line 414). -/
structure AirQualityCtx where
  stations : Int
  pm25Range : Option String
  worstParameter : Option String
  summary : String

/-- Sub-field `envContext.webcams` (part_003 line 415). -/
structure WebcamsCtx where
  total : Int
  activeCount : Int
  categories : List String
  summary : String

/-- Interface `EnvContext` (part_003 lines 412-416): exactly three independently
optional sub-fields. -/
structure EnvContext where
  fires : Option FiresCtx
  airQuality : Option AirQualityCtx
  webcams : Option WebcamsCtx

/-- JS `x ?? 'N/A'` over an optional number. -/
def numOrNA (v : Option Int) : String :=
  match v with
  | some n => toString n
  | none => "N/A"

/-- JS `x ?? 'N/A'` over an optional string. -/
def strOrNA (v : Option String) : String :=
  match v with
  | some s => s
  | none => "N/A"

/-- The location prefix line, pushed only when `location` is truthy
(part_003 line 437). -/
def locationLine (location : Option String) : Option String :=
  match location with
  | some l => if l = "" then none else some ("[Location context: " ++ l ++ "]")
  | none => none

/-- The NASA FIRMS prefix line (part_003 line 439). -/
def firesLine (f : FiresCtx) : String :=
  "[ENVIRONMENTAL DATA — NASA FIRMS Fire Detections: " ++
    toString f.totalPoints ++ " fire points in " ++ toString f.groups ++
    " clusters. Highest FRP: " ++ numOrNA f.highestFrp ++ " MW. " ++
    f.summary ++ "]"

/-- The OpenAQ prefix line (part_003 line 442). -/
def airQualityLine (a : AirQualityCtx) : String :=
  "[ENVIRONMENTAL DATA — OpenAQ Air Quality: " ++ toString a.stations ++
    " monitoring stations. PM2.5 range: " ++ strOrNA a.pm25Range ++
    ". Worst parameter: " ++ strOrNA a.worstParameter ++ ". " ++
    a.summary ++ "]"

/-- JS `categories.join(', ') || 'general'` (part_003 line 445). -/
def categoriesText (categories : List String) : String :=
  let joined := String.intercalate ", " categories
  if joined = "" then "general" else joined

/-- The public-webcams prefix line (part_003 line 445). -/
def webcamsLine (w : WebcamsCtx) : String :=
  "[ENVIRONMENTAL DATA — Public Webcams: " ++ toString w.activeCount ++
    " active public cameras in area (" ++ toString w.total ++
    " total). Categories: " ++ categoriesText w.categories ++ ". " ++
    w.summary ++ "]"

/-- Optional chaining `envContext?.fires` and friends: a sub-field of an optional context. -/
def envFires (env : Option EnvContext) : Option FiresCtx :=
  env.bind (·.fires)

def envAirQuality (env : Option EnvContext) : Option AirQualityCtx :=
  env.bind (·.airQuality)

def envWebcams (env : Option EnvContext) : Option WebcamsCtx :=
  env.bind (·.webcams)

/-- The `parts` array built by `fullMAGISybilAnalysis` before joining
(part_003 lines 436-447): optional location line, then one line per
present environmental sub-field in the fixed order fires, air quality,
webcams, then the raw query. -/
def fullQueryParts (query : String) (location : Option String)
    (env : Option EnvContext) : List String :=
  (locationLine location).toList ++
  ((envFires env).map firesLine).toList ++
  ((envAirQuality env).map airQualityLine).toList ++
  ((envWebcams env).map webcamsLine).toList ++
  [query]

/-- JS `const fullQuery = parts.join('\n\n')` (part_003 line 448). -/
def buildFullQuery (query : String) (location : Option String)
    (env : Option EnvContext) : String :=
  String.intercalate "\n\n" (fullQueryParts query location env)

/-- The `magiInputs` transcript (part_003 lines 543-553): labelled core
outputs with attempt counts, the original query, then optional location,
fire and air-quality entries, empty entries filtered out, joined with
blank lines. -/
def buildMagiInputs (query : String) (location : Option String)
    (env : Option EnvContext) (casperOut balthasarOut melchiorOut : CoreOutcome) :
    String :=
  let entries : List String :=
    ["=== CASPER (Logic Core — DeepSeek, temp 0.2) [validated in " ++
       toString casperOut.attempts ++ " attempt(s)] ===\n" ++ casperOut.result,
     "=== BALTHASAR (Empathy Core — GPT-4o, temp 0.7) [validated in " ++
       toString balthasarOut.attempts ++ " attempt(s)] ===\n" ++ balthasarOut.result,
     "=== MELCHIOR (Intuition Core — Grok, temp 0.85) [validated in " ++
       toString melchiorOut.attempts ++ " attempt(s)] ===\n" ++ melchiorOut.result,
     "=== ORIGINAL USER QUERY ===\n" ++ query,
     (match location with
      | some l => if l = "" then "" else "=== LOCATION CONTEXT ===\n" ++ l
      | none => ""),
     (match envFires env with
      | some f => "=== ENVIRONMENTAL: FIRE DATA ===\n" ++
          toString f.totalPoints ++ " fire points in " ++ toString f.groups ++
          " clusters. Highest FRP: " ++ numOrNA f.highestFrp ++ " MW. " ++ f.summary
      | none => ""),
     (match envAirQuality env with
      | some a => "=== ENVIRONMENTAL: AIR QUALITY ===\n" ++
          toString a.stations ++ " stations. PM2.5 range: " ++
          strOrNA a.pm25Range ++ ". Worst: " ++ strOrNA a.worstParameter ++
          ". " ++ a.summary
      | none => "")]
  String.intercalate "\n\n" (entries.filter (· ≠ ""))

/-- JS `if (x.error) errors.push(x.error)` (part_003 lines 531-533): a push
guarded by JS truthiness of the optional error string. -/
def pushIfTruthy (e : Option String) : List String :=
  match e with
  | some s => if s = "" then [] else [s]
  | none => []

/-- The behaviour of every external call made during one run of
`fullMAGISybilAnalysis`.  Generation oracles receive the prompt text the
source passes to the model (the full query for the cores, the transcript
for sybil) and the attempt index; core generation also receives the
feedback argument threaded by the retry controller.  Judge oracles give
the outcome each validator call consumes. -/
structure MAGIOracle where
  casperGen : String → Nat → Option String → Except String String
  balthasarGen : String → Nat → Option String → Except String String
  melchiorGen : String → Nat → Option String → Except String String
  casperJudge : Nat → Except Unit JVal
  balthasarJudge : Nat → Except Unit JVal
  melchiorJudge : Nat → Except Unit JVal
  sybilGen : String → Nat → Except String JVal
  sybilJudge : Nat → Except Unit JVal

/-- Interface `MAGIResult` (part_003 lines 209-215), with the sybil verdict kept as
the JSON value the code returns. -/
structure MAGIResult where
  casper : String
  balthasar : String
  melchior : String
  sybil : JVal
  errors : List String

/-- Value `casperOut` (part_003 lines 457-479), with the model call abstracted
by the oracle applied to the full query the source sends. -/
def casperOutcome (query : String) (location : Option String)
    (envContext : Option EnvContext) (o : MAGIOracle) : CoreOutcome :=
  generateAndValidateCore "CASPER"
    (o.casperGen (buildFullQuery query location envContext)) o.casperJudge

/-- Value `balthasarOut` (part_003 lines 481-503). -/
def balthasarOutcome (query : String) (location : Option String)
    (envContext : Option EnvContext) (o : MAGIOracle) : CoreOutcome :=
  generateAndValidateCore "BALTHASAR"
    (o.balthasarGen (buildFullQuery query location envContext)) o.balthasarJudge

/-- Value `melchiorOut` (part_003 lines 505-527). -/
def melchiorOutcome (query : String) (location : Option String)
    (envContext : Option EnvContext) (o : MAGIOracle) : CoreOutcome :=
  generateAndValidateCore "MELCHIOR"
    (o.melchiorGen (buildFullQuery query location envContext)) o.melchiorJudge

/-- The transcript handed to the synthesis model for this run. -/
def magiTranscript (query : String) (location : Option String)
    (envContext : Option EnvContext) (o : MAGIOracle) : String :=
  buildMagiInputs query location envContext
    (casperOutcome query location envContext o)
    (balthasarOutcome query location envContext o)
    (melchiorOutcome query location envContext o)

/-- The sybil phase of this run: final verdict plus the error strings the
sybil loop pushed. -/
def sybilOutcome (query : String) (location : Option String)
    (envContext : Option EnvContext) (o : MAGIOracle) : JVal × List String :=
  sybilLoop (o.sybilGen (magiTranscript query location envContext o)) o.sybilJudge

/-- Function `fullMAGISybilAnalysis` (part_003 lines 430-640): build the full
query, run the three retry controllers, collect their errors in
declaration order (CASPER, BALTHASAR, MELCHIOR), build the transcript,
run the sybil loop, and append its errors. -/
def fullMAGISybilAnalysis (query : String) (location : Option String)
    (envContext : Option EnvContext) (o : MAGIOracle) : MAGIResult :=
  { casper := (casperOutcome query location envContext o).result
    balthasar := (balthasarOutcome query location envContext o).result
    melchior := (melchiorOutcome query location envContext o).result
    sybil := (sybilOutcome query location envContext o).1
    errors :=
      pushIfTruthy (casperOutcome query location envContext o).error ++
      pushIfTruthy (balthasarOutcome query location envContext o).error ++
      pushIfTruthy (melchiorOutcome query location envContext o).error ++
      (sybilOutcome query location envContext o).2 }

/-- Kernel-reducible `text.endsWith(c)` for a single-character suffix. -/
def lastCharIs (c : Char) (s : String) : Bool := s.data.getLast? = some c

/-- One when an optional value is present, else 0. -/
def countOpt {α : Type} (v : Option α) : Nat :=
  match v with
  | some _ => 1
  | none => 0

/-- Modelled from the spec: the curated-conflict summary sub-field of the
environmental context described in spec §6 (`{totalEvents, fatalities,
eventTypes[], timeRangeText, freeTextSummary}`); part_003's `EnvContext`
(lines 412-416) has no such sub-field. -/
structure CuratedConflictCtx where
  totalEvents : Int
  fatalities : Int
  eventTypes : List String
  timeRangeText : String
  freeTextSummary : String

/-- Modelled from the spec: the real-time-conflict summary sub-field of
the environmental context described in spec §6 (`{totalEvents,
geolocatedCount, averageTone, topSources[], freeTextSummary}`); part_003's
`EnvContext` has no such sub-field. -/
structure RealTimeConflictCtx where
  totalEvents : Int
  geolocatedCount : Int
  averageTone : Int
  topSources : List String
  freeTextSummary : String

/-- Modelled from the spec: the environmental-context shape claimed in
spec §4.5/§6 — five independently optional sub-fields (fire, air-quality,
webcam, curated-conflict, real-time-conflict summaries). -/
structure SpecEnvContext where
  fires : Option FiresCtx
  airQuality : Option AirQualityCtx
  webcams : Option WebcamsCtx
  curatedConflict : Option CuratedConflictCtx
  realTimeConflict : Option RealTimeConflictCtx

/-- Modelled from the spec: the number of blank-line-separated parts the
claimed prompt construction produces — one bracketed prefix line per
present sub-field among the five, one for a truthy location, plus the raw
query. -/
def specPartsCount (location : Option String) (s : SpecEnvContext) : Nat :=
  countOpt (locationLine location) + countOpt s.fires + countOpt s.airQuality +
    countOpt s.webcams + countOpt s.curatedConflict + countOpt s.realTimeConflict + 1

/-- A sample spec-level environmental context with every sub-field
present. -/
def specFullCtx : SpecEnvContext :=
  { fires := some { totalPoints := 3, groups := 1, highestFrp := some 12, summary := "fires" }
    airQuality := some { stations := 2, pm25Range := some "10-20", worstParameter := some "pm25", summary := "aq" }
    webcams := some { total := 5, activeCount := 2, categories := ["traffic"], summary := "cams" }
    curatedConflict := some { totalEvents := 4, fatalities := 1, eventTypes := ["battle"], timeRangeText := "30d", freeTextSummary := "acled" }
    realTimeConflict := some { totalEvents := 9, geolocatedCount := 6, averageTone := -3, topSources := ["wire"], freeTextSummary := "gdelt" } }

/-- A minimal structurally valid synthesis reply: a number-valued
`safetyCoefficient`, a color label and an (already array-valued)
`scenarios` field. -/
def mkSybilReply (c : Int) (color : String) : JVal :=
  .obj [("safetyCoefficient", .num c),
        ("psychoPassColor", .str color),
        ("scenarios", .arr [])]

/-- A judge reply that rejects with one issue. -/
def rejectingReply (issue : String) (feedback : String) : JVal :=
  .obj [("pass", .bool false),
        ("issues", .arr [.str issue]),
        ("feedback", .str feedback)]

/-- A judge reply that accepts. -/
def acceptingReply : JVal :=
  .obj [("pass", .bool true), ("issues", .arr []), ("feedback", .str "")]

/-- A judge reply that parses as a JSON object but carries no `pass`
field at all. -/
def noPassReply : JVal :=
  .obj [("issues", .arr []), ("feedback", .str "needs work")]

/-- One sybil attempt ends in a retry (rather than acceptance): thrown
call/parse error, failed structural check, or semantic rejection. -/
def sybilContinues (gen : Nat → Except String JVal)
    (judge : Nat → Except Unit JVal) (attempt : Nat) : Prop :=
  (∃ msg, gen attempt = .error msg) ∨
  (∃ j msg, gen attempt = .ok j ∧ sybilStructAndCorrect j = .error msg) ∨
  (∃ j j', gen attempt = .ok j ∧ sybilStructAndCorrect j = .ok j' ∧
    (validateSybilOutput (judge attempt)).pass = false)

/-- The invariant every verdict leaving the sybil phase satisfies:
numeric coefficient, color equal to the coefficient's threshold color,
array scenarios. -/
def sybilWellformed (j : JVal) : Prop :=
  ∃ c xs, getField j "safetyCoefficient" = some (.num c) ∧
    getField j "psychoPassColor" = some (.str (expectedColor c)) ∧
    getField j "scenarios" = some (.arr xs)

def c4text : Nat → Option String → String := fun _ _ => "Detailed analysis"

def c4judge : Nat → Except Unit JVal := fun _ => .ok (rejectingReply "too vague" "add specifics")

def c8gen : Nat → Option String → Except String String :=
  fun a _ => if a = 0 then .ok "Solid statistical analysis" else .error "timeout"

def oracle62 : MAGIOracle :=
  { casperGen := fun _ _ _ => .ok "Core analysis"
    balthasarGen := fun _ _ _ => .ok "Core analysis"
    melchiorGen := fun _ _ _ => .ok "Core analysis"
    casperJudge := fun _ => .ok acceptingReply
    balthasarJudge := fun _ => .ok acceptingReply
    melchiorJudge := fun _ => .ok acceptingReply
    sybilGen := fun _ _ => .ok (mkSybilReply 62 "orange")
    sybilJudge := fun _ => .ok acceptingReply }

def cexOracle1 : MAGIOracle :=
  { casperGen := fun _ _ _ => .ok "Core analysis ready"
    balthasarGen := fun _ _ _ => .ok "Core analysis ready"
    melchiorGen := fun _ _ _ => .ok "Core analysis ready"
    casperJudge := fun _ => .ok acceptingReply
    balthasarJudge := fun _ => .ok acceptingReply
    melchiorJudge := fun _ => .ok acceptingReply
    sybilGen := fun _ _ => .ok (mkSybilReply 80 "green")
    sybilJudge := fun _ => .ok (rejectingReply "unfaithful" "redo") }

def wOracle1 : MAGIOracle :=
  { casperGen := fun _ _ _ => .ok "Core analysis ready"
    balthasarGen := fun _ _ _ => .ok "Core analysis ready"
    melchiorGen := fun _ _ _ => .ok "Core analysis ready"
    casperJudge := fun _ => .ok acceptingReply
    balthasarJudge := fun _ => .ok acceptingReply
    melchiorJudge := fun _ => .ok acceptingReply
    sybilGen := fun _ _ => .error "boom"
    sybilJudge := fun _ => .ok acceptingReply }

def c6Oracle : MAGIOracle :=
  { casperGen := fun _ _ _ => .ok "Deep analysis"
    balthasarGen := fun _ _ _ => .ok "Humanitarian briefing"
    melchiorGen := fun _ _ _ => .ok "Pattern scan"
    casperJudge := fun _ => .ok (rejectingReply "off-topic" "focus")
    balthasarJudge := fun _ => .ok acceptingReply
    melchiorJudge := fun _ => .ok acceptingReply
    sybilGen := fun _ _ => .ok (mkSybilReply 70 "yellow")
    sybilJudge := fun _ => .ok acceptingReply }

theorem validateCoreOutput_error (coreName : String) :
    validateCoreOutput coreName (.error ()) =
      { pass := true, issues := [], feedback := "" } := by
  unfold validateCoreOutput
  split <;> rfl

theorem append_ne_empty (s t : String) (h : s ≠ "") : s ++ t ≠ "" := by
  intro hc
  apply h
  have hd := congrArg String.data hc
  simp only [String.data_append] at hd
  rcases List.append_eq_nil.mp hd with ⟨h1, _⟩
  exact String.ext h1

theorem lookup_setFieldList_self (l : List (String × JVal)) (k : String) (v : JVal) :
    (setFieldList l k v).lookup k = some v := by
  induction l with
  | nil => simp [setFieldList, List.lookup]
  | cons hd tl ih =>
      obtain ⟨k', v'⟩ := hd
      by_cases hk : k' = k
      · simp [setFieldList, hk, List.lookup]
      · have hb : (k == k') = false := beq_eq_false_iff_ne.mpr (Ne.symm hk)
        simp [setFieldList, hk, List.lookup, hb, ih]

theorem lookup_setFieldList_ne (l : List (String × JVal)) (k k' : String) (v : JVal)
    (h : k' ≠ k) : (setFieldList l k v).lookup k' = l.lookup k' := by
  have hb : (k' == k) = false := beq_eq_false_iff_ne.mpr h
  induction l with
  | nil => simp [setFieldList, List.lookup, hb]
  | cons hd tl ih =>
      obtain ⟨k0, v0⟩ := hd
      by_cases hk : k0 = k
      · subst hk
        simp [setFieldList, List.lookup, hb]
      · simp [setFieldList, hk, List.lookup, ih]

theorem expectedColor_eq_green (c : Int) : expectedColor c = "green" ↔ 75 ≤ c := by
  unfold expectedColor
  split_ifs with h1 h2 h3 <;> simp_all <;> omega

theorem expectedColor_eq_yellow (c : Int) :
    expectedColor c = "yellow" ↔ 50 ≤ c ∧ c < 75 := by
  unfold expectedColor
  split_ifs with h1 h2 h3 <;> simp_all <;> omega

theorem expectedColor_eq_orange (c : Int) :
    expectedColor c = "orange" ↔ 25 ≤ c ∧ c < 50 := by
  unfold expectedColor
  split_ifs with h1 h2 h3 <;> simp_all <;> omega

theorem expectedColor_eq_red (c : Int) : expectedColor c = "red" ↔ c < 25 := by
  unfold expectedColor
  split_ifs with h1 h2 h3 <;> simp_all <;> omega

theorem expectedColor_mem (c : Int) :
    expectedColor c ∈ (["green", "yellow", "orange", "red"] : List String) := by
  unfold expectedColor
  split_ifs <;> simp

theorem core_acceptFirst_outcome (coreName : String)
    (gen : Nat → Option String → Except String String)
    (judge : Nat → Except Unit JVal) (t : String)
    (hgen : gen 0 none = .ok t)
    (hoff : firstCharIs '[' t = false)
    (hpass : (validateCoreOutput coreName (judge 0)).pass = true) :
    generateAndValidateCore coreName gen judge =
      { result := t, attempts := 1, error := none } := by
  unfold generateAndValidateCore generateAndValidateCoreAux
  simp [fbArg, hgen, hoff, hpass]

theorem core_rejectAll_outcome (coreName : String)
    (tf : Nat → Option String → String) (judge : Nat → Except Unit JVal)
    (hoff : ∀ a fb, firstCharIs '[' (tf a fb) = false)
    (hrej : ∀ a, (validateCoreOutput coreName (judge a)).pass = false) :
    generateAndValidateCore coreName (fun a fb => .ok (tf a fb)) judge =
      { result := tf 2 (some ((validateCoreOutput coreName (judge 1)).feedback))
        attempts := 3
        error := some (coreName ++ " used after " ++ toString 3 ++
          " attempts (last issues: " ++
          joinIssues ((validateCoreOutput coreName (judge 2)).issues) ++ ")") } := by
  simp [generateAndValidateCore, generateAndValidateCoreAux, fbArg, hoff, hrej,
    MAX_RETRIES]

theorem sybil_step (gen : Nat → Except String JVal)
    (judge : Nat → Except Unit JVal) (f a : Nat) (cur : JVal)
    (ha : a ≠ MAX_RETRIES) (hcont : sybilContinues gen judge a) :
    ∃ cur', sybilLoopAux gen judge (f + 1) a cur =
      sybilLoopAux gen judge f (a + 1) cur' := by
  rcases hcont with ⟨msg, hg⟩ | ⟨j, msg, hg, hs⟩ | ⟨j, j', hg, hs, hv⟩
  · exact ⟨cur, by simp [sybilLoopAux, hg, ha]⟩
  · exact ⟨j, by simp [sybilLoopAux, hg, hs, ha]⟩
  · exact ⟨j', by simp [sybilLoopAux, hg, hs, hv, ha]⟩

theorem sybil_final_transport (gen : Nat → Except String JVal)
    (judge : Nat → Except Unit JVal) (f : Nat) (cur : JVal) (msg : String)
    (hg : gen 2 = .error msg) :
    sybilLoopAux gen judge (f + 1) 2 cur =
      (FALLBACK_SYBIL,
       ["Sybil synthesis error after " ++ toString 3 ++ " attempts: " ++ msg]) := by
  simp [sybilLoopAux, hg, MAX_RETRIES]

theorem sybil_final_struct (gen : Nat → Except String JVal)
    (judge : Nat → Except Unit JVal) (f : Nat) (cur : JVal) (j : JVal) (msg : String)
    (hg : gen 2 = .ok j) (hs : sybilStructAndCorrect j = .error msg) :
    sybilLoopAux gen judge (f + 1) 2 cur =
      (FALLBACK_SYBIL,
       ["Sybil synthesis error after " ++ toString 3 ++ " attempts: " ++ msg]) := by
  simp [sybilLoopAux, hg, hs, MAX_RETRIES]

theorem sybil_final_reject (gen : Nat → Except String JVal)
    (judge : Nat → Except Unit JVal) (f : Nat) (cur : JVal) (j j' : JVal)
    (hg : gen 2 = .ok j) (hs : sybilStructAndCorrect j = .ok j')
    (hv : (validateSybilOutput (judge 2)).pass = false) :
    sybilLoopAux gen judge (f + 1) 2 cur =
      (j', ["Sybil synthesis used after " ++ toString 3 ++ " attempts (issues: " ++
            joinIssues ((validateSybilOutput (judge 2)).issues) ++ ")"]) := by
  simp [sybilLoopAux, hg, hs, hv, MAX_RETRIES]

theorem sybil_acceptFirst (gen : Nat → Except String JVal)
    (judge : Nat → Except Unit JVal) (j j' : JVal)
    (hg : gen 0 = .ok j) (hs : sybilStructAndCorrect j = .ok j')
    (hv : (validateSybilOutput (judge 0)).pass = true) :
    sybilLoop gen judge = (j', []) := by
  simp [sybilLoop, sybilLoopAux, hg, hs, hv, MAX_RETRIES]

theorem fallback_wellformed : sybilWellformed FALLBACK_SYBIL :=
  ⟨50, [], rfl, rfl, rfl⟩

theorem struct_ok_wellformed (j j' : JVal)
    (h : sybilStructAndCorrect j = .ok j') : sybilWellformed j' := by
  unfold sybilStructAndCorrect at h
  split at h
  case _ coeff heq1 =>
    split at h
    · simp at h
    case _ c heq2 =>
      split at h
      case isTrue ht =>
        split at h
        case _ s =>
          split at h
          case isTrue hmem =>
            simp only [Except.ok.injEq] at h
            subst h
            cases j with
            | obj l =>
                simp only [getField] at heq1 heq2
                by_cases heqc : s = expectedColor coeff
                · simp only [if_pos heqc, setField, getField]
                  split
                  case _ xs hscen =>
                    exact ⟨coeff, xs, by simp [getField, heq1],
                      by simp [getField, heq2, heqc], by simpa [getField] using hscen⟩
                  case _ hne =>
                    refine ⟨coeff, [], ?_, ?_, ?_⟩
                    · simpa [getField, lookup_setFieldList_ne _ _ _ _
                        (by decide : ("safetyCoefficient" : String) ≠ "scenarios")] using heq1
                    · simp [getField, lookup_setFieldList_ne _ _ _ _
                        (by decide : ("psychoPassColor" : String) ≠ "scenarios"), heq2, heqc]
                    · simp [getField, lookup_setFieldList_self]
                · simp only [if_neg heqc, setField, getField]
                  split
                  case _ xs hscen =>
                    refine ⟨coeff, xs, ?_, ?_, ?_⟩
                    · simpa [getField, lookup_setFieldList_ne _ _ _ _
                        (by decide : ("safetyCoefficient" : String) ≠ "psychoPassColor")] using heq1
                    · simp [getField, lookup_setFieldList_self]
                    · simpa [getField] using hscen
                  case _ hne =>
                    refine ⟨coeff, [], ?_, ?_, ?_⟩
                    · simpa [getField,
                        lookup_setFieldList_ne _ _ _ _
                          (by decide : ("safetyCoefficient" : String) ≠ "scenarios"),
                        lookup_setFieldList_ne _ _ _ _
                          (by decide : ("safetyCoefficient" : String) ≠ "psychoPassColor")]
                        using heq1
                    · simp [getField,
                        lookup_setFieldList_ne _ _ _ _
                          (by decide : ("psychoPassColor" : String) ≠ "scenarios"),
                        lookup_setFieldList_self]
                    · simp [getField, lookup_setFieldList_self]
            | null => simp [getField] at heq1
            | bool b => simp [getField] at heq1
            | num n => simp [getField] at heq1
            | str s0 => simp [getField] at heq1
            | arr xs => simp [getField] at heq1
          case isFalse hmem => simp at h
        all_goals simp at h
      case isFalse ht => simp at h
  · simp at h

theorem sybilLoopAux_wellformed (gen : Nat → Except String JVal)
    (judge : Nat → Except Unit JVal) :
    ∀ (f a : Nat) (cur : JVal), a ≤ MAX_RETRIES → a + f = MAX_RETRIES + 1 →
      sybilWellformed (sybilLoopAux gen judge f a cur).1 := by
  intro f
  induction f with
  | zero =>
      intro a cur ha hf
      simp [MAX_RETRIES] at ha hf
      omega
  | succ k ih =>
      intro a cur ha hf
      have hrec : ∀ cur', a ≠ MAX_RETRIES →
          sybilWellformed (sybilLoopAux gen judge k (a + 1) cur').1 := by
        intro cur' hne
        exact ih (a + 1) cur' (by simp [MAX_RETRIES] at ha hne ⊢; omega) (by omega)
      simp only [sybilLoopAux]
      cases hg : gen a with
      | error msg =>
          by_cases hA : a = MAX_RETRIES
          · simp [hA, fallback_wellformed]
          · simp [hA]
            exact hrec cur hA
      | ok j =>
          cases hs : sybilStructAndCorrect j with
          | error msg =>
              by_cases hA : a = MAX_RETRIES
              · simp [hs, hA, fallback_wellformed]
              · simp [hs, hA]
                exact hrec j hA
          | ok j' =>
              by_cases hv : (validateSybilOutput (judge a)).pass = true
              · simp [hs, hv]
                exact struct_ok_wellformed j j' hs
              · simp only [Bool.not_eq_true] at hv
                by_cases hA : a = MAX_RETRIES
                · subst hA
                  simp [hs, hv]
                  exact struct_ok_wellformed j j' hs
                · simp [hs, hv, hA]
                  exact hrec j' hA

theorem sybilLoop_wellformed (gen : Nat → Except String JVal)
    (judge : Nat → Except Unit JVal) :
    sybilWellformed (sybilLoop gen judge).1 :=
  sybilLoopAux_wellformed gen judge (MAX_RETRIES + 1) 0 FALLBACK_SYBIL
    (by simp [MAX_RETRIES]) (by simp)

theorem validateSybilOutput_error :
    validateSybilOutput (.error ()) = { pass := true, issues := [], feedback := "" } := rfl

theorem struct_mkSybilReply (c : Int) (s : String) (hne : s ≠ "")
    (hmem : (["green", "yellow", "orange", "red"] : List String).contains s = true) :
    sybilStructAndCorrect (mkSybilReply c s) = .ok (mkSybilReply c (expectedColor c)) := by
  have hmem' : s = "green" ∨ s = "yellow" ∨ s = "orange" ∨ s = "red" := by
    simpa using hmem
  by_cases heq : s = expectedColor c
  · subst heq
    simp [sybilStructAndCorrect, mkSybilReply, getField, List.lookup, truthy, hne, hmem]
    tauto
  · simp [sybilStructAndCorrect, mkSybilReply, getField, List.lookup, truthy, hne, hmem,
      heq, setField, setFieldList]
    tauto

/-- Claim C2 (amended): for a judge reply that parses as a JSON object the
verdict's `pass` is the JS truthiness of the reply's `pass` field (so a
missing or falsy `pass` rejects); fail-open acceptance happens exactly
when the judge call or its parse fails. -/
theorem claim2_judge_pass_truthiness :
    (∀ j, (validateSybilOutput (.ok j)).pass = truthyOpt (getField j "pass")) ∧
    (validateSybilOutput (.error ())).pass = true ∧
    (∀ coreName j, hasValidatorPrompt coreName = true →
      (validateCoreOutput coreName (.ok j)).pass = truthyOpt (getField j "pass")) ∧
    (∀ coreName, (validateCoreOutput coreName (.error ())).pass = true) := by
  refine ⟨fun j => rfl, rfl, ?_, ?_⟩
  · intro coreName j h
    simp [validateCoreOutput, h, parseValidation]
  · intro coreName
    simp [validateCoreOutput_error]

/-- Claim C2 counterexample: a judge reply that parses as a JSON object but
has no `pass` field yields `pass = false` (rejection), not the claimed
fail-open `pass = true`. -/
theorem claim2_counterexample :
    (validateSybilOutput (.ok noPassReply)).pass = false ∧
    (validateCoreOutput "CASPER" (.ok noPassReply)).pass = false := ⟨rfl, rfl⟩

/-- Claim C2 witness: the amended truthiness equation evaluated at a
concrete core and reply. -/
theorem claim2_witness :
    hasValidatorPrompt "CASPER" = true ∧
    (validateCoreOutput "CASPER" (.ok (rejectingReply "i" "f"))).pass =
      truthyOpt (getField (rejectingReply "i" "f") "pass") :=
  ⟨rfl, claim2_judge_pass_truthiness.2.2.1 "CASPER" (rejectingReply "i" "f") rfl⟩

/-- Claim C4: when generation always succeeds with non-offline text and the
judge rejects every attempt, the retry controller performs exactly
`MAX_RETRIES + 1 = 3` attempts and returns the third attempt's text with
an error naming the final issues. -/
theorem claim4_retry_ceiling (coreName : String)
    (tf : Nat → Option String → String) (judge : Nat → Except Unit JVal)
    (hoff : ∀ a fb, firstCharIs '[' (tf a fb) = false)
    (hrej : ∀ a, (validateCoreOutput coreName (judge a)).pass = false) :
    MAX_RETRIES + 1 = 3 ∧
    generateAndValidateCore coreName (fun a fb => .ok (tf a fb)) judge =
      { result := tf 2 (some ((validateCoreOutput coreName (judge 1)).feedback))
        attempts := 3
        error := some (coreName ++ " used after " ++ toString 3 ++
          " attempts (last issues: " ++
          joinIssues ((validateCoreOutput coreName (judge 2)).issues) ++ ")") } :=
  ⟨rfl, core_rejectAll_outcome coreName tf judge hoff hrej⟩

/-- Claim C4 witness: a concrete reject-everything judge produces exactly
three attempts and the expected error string. -/
theorem claim4_witness :
    generateAndValidateCore "CASPER" (fun a fb => .ok (c4text a fb)) c4judge =
      { result := "Detailed analysis", attempts := 3
        error := some "CASPER used after 3 attempts (last issues: too vague)" } := by
  have h := claim4_retry_ceiling "CASPER" c4text c4judge
    (fun a fb => rfl) (fun a => rfl)
  rw [h.2]
  rfl

/-- Claim C5: a failed judge call (transport error, timeout or unparseable
reply) is fail-open — the candidate is accepted on that attempt, the
returned error field is empty, and no retry happens. -/
theorem claim5_judge_failure_accepts (coreName : String)
    (gen : Nat → Option String → Except String String)
    (judge : Nat → Except Unit JVal) (fuel attempt attempts : Nat)
    (lastOutput lastFeedback text : String)
    (hgen : gen attempt (fbArg attempt lastFeedback) = .ok text)
    (hoff : firstCharIs '[' text = false)
    (hjudge : judge attempt = .error ()) :
    generateAndValidateCoreAux coreName gen judge (fuel + 1) attempt attempts
      lastOutput lastFeedback =
      { result := text, attempts := attempt + 1, error := none } := by
  simp [generateAndValidateCoreAux, hgen, hoff, hjudge, validateCoreOutput_error]

/-- Claim C5 witness: a concrete failing judge accepts the first candidate
with no error entry. -/
theorem claim5_witness :
    generateAndValidateCoreAux "CASPER" (fun _ _ => .ok "Risk model output")
      (fun _ => .error ()) 3 0 0 "" "" =
      { result := "Risk model output", attempts := 1, error := none } :=
  claim5_judge_failure_accepts "CASPER" (fun _ _ => .ok "Risk model output")
    (fun _ => .error ()) 2 0 0 "" "" "Risk model output" rfl rfl rfl

/-- Claim C8 (amended): a generation failure below the ceiling retries at
the same feedback state; a generation failure at the ceiling returns the
last successfully generated text when one exists — otherwise a
synthesized offline-marker text — plus the error. -/
theorem claim8_generation_failure :
    (∀ (coreName : String) (gen : Nat → Option String → Except String String)
       (judge : Nat → Except Unit JVal) (fuel attempt attempts : Nat)
       (lastOutput lastFeedback msg : String),
      attempt ≠ MAX_RETRIES →
      gen attempt (fbArg attempt lastFeedback) = .error msg →
      generateAndValidateCoreAux coreName gen judge (fuel + 1) attempt attempts
        lastOutput lastFeedback =
      generateAndValidateCoreAux coreName gen judge fuel (attempt + 1) (attempt + 1)
        lastOutput lastFeedback) ∧
    (∀ (coreName : String) (gen : Nat → Option String → Except String String)
       (judge : Nat → Except Unit JVal) (fuel attempts : Nat)
       (lastOutput lastFeedback msg : String),
      gen MAX_RETRIES (fbArg MAX_RETRIES lastFeedback) = .error msg →
      generateAndValidateCoreAux coreName gen judge (fuel + 1) MAX_RETRIES attempts
        lastOutput lastFeedback =
      { result := if lastOutput = "" then
          "[" ++ coreName ++ " OFFLINE] — Core unavailable after " ++ toString 3 ++
            " attempts. Error: " ++ msg
        else lastOutput
        attempts := 3
        error := some (coreName ++ " failed on attempt " ++ toString 3 ++ ": " ++
          errMsgOr msg) }) := by
  constructor
  · intro coreName gen judge fuel attempt attempts lastOutput lastFeedback msg ha hgen
    simp [generateAndValidateCoreAux, hgen, ha]
  · intro coreName gen judge fuel attempts lastOutput lastFeedback msg hgen
    simp only [MAX_RETRIES] at hgen
    simp [generateAndValidateCoreAux, hgen, MAX_RETRIES]

/-- Claim C8 counterexample: attempt 1 succeeds but is rejected, attempts
2 and 3 throw; the controller returns the rejected attempt-1 text — which
is not an offline-marker text — rather than the claimed synthesized
offline marker. -/
theorem claim8_counterexample :
    generateAndValidateCore "CASPER" c8gen c4judge =
      { result := "Solid statistical analysis", attempts := 3
        error := some "CASPER failed on attempt 3: timeout" } ∧
    firstCharIs '[' "Solid statistical analysis" = false := ⟨rfl, rfl⟩

/-- Claim C8 witness: the at-ceiling branch evaluated with no prior
successful output yields the synthesized offline-marker text. -/
theorem claim8_witness :
    generateAndValidateCoreAux "CASPER" (fun _ _ => .error "boom")
      (fun _ => .error ()) 1 MAX_RETRIES 0 "" "" =
      { result := "[CASPER OFFLINE] — Core unavailable after 3 attempts. Error: boom"
        attempts := 3
        error := some "CASPER failed on attempt 3: boom" } := by
  have h := claim8_generation_failure.2 "CASPER" (fun _ _ => .error "boom")
    (fun _ => .error ()) 0 0 "" "" "boom" rfl
  rw [h]
  rfl

/-- Claim C10: any generated text beginning with `'['` — including the
`[No response from …]` placeholder substituted for an absent or empty
model reply — short-circuits the controller: validation is skipped and the
current text, attempt count and an offline-marker error are returned
immediately, independently of the judge and of any remaining fuel. -/
theorem claim10_offline_marker (coreName : String)
    (gen : Nat → Option String → Except String String)
    (judge : Nat → Except Unit JVal) (fuel attempt attempts : Nat)
    (lastOutput lastFeedback text : String)
    (hgen : gen attempt (fbArg attempt lastFeedback) = .ok text)
    (hoff : firstCharIs '[' text = true) :
    generateAndValidateCoreAux coreName gen judge (fuel + 1) attempt attempts
      lastOutput lastFeedback =
      { result := text, attempts := attempt + 1
        error := some (coreName ++ " returned offline marker") } ∧
    firstCharIs '[' (coreReplyText "[No response from Casper]" none) = true ∧
    firstCharIs '[' (coreReplyText "[No response from Balthasar]" (some "")) = true ∧
    firstCharIs '[' (coreReplyText "[No response from Melchior]" (some "")) = true := by
  refine ⟨?_, rfl, rfl, rfl⟩
  simp [generateAndValidateCoreAux, hgen, hoff]

/-- Claim C10 witness: the empty-reply placeholder short-circuits on the
first attempt. -/
theorem claim10_witness :
    generateAndValidateCoreAux "CASPER"
      (fun _ _ => .ok (coreReplyText "[No response from Casper]" (some "")))
      c4judge 3 0 0 "" "" =
      { result := "[No response from Casper]", attempts := 1
        error := some "CASPER returned offline marker" } :=
  (claim10_offline_marker "CASPER"
    (fun _ _ => .ok (coreReplyText "[No response from Casper]" (some "")))
    c4judge 2 0 0 "" "" "[No response from Casper]" rfl rfl).1

/-- Claim C3: whenever a structurally valid synthesis reply carrying an
integer coefficient `c` in `[0,100]` and any of the four color labels is
accepted, the returned verdict's color is green iff `c ≥ 75`, yellow iff
`50 ≤ c < 75`, orange iff `25 ≤ c < 50` and red iff `c < 25`, regardless
of the label the synthesis model emitted. -/
theorem claim3_color_thresholds (q : String) (loc : Option String)
    (env : Option EnvContext) (o : MAGIOracle) (c : Int) (emitted : String)
    (hgen : ∀ s, o.sybilGen s 0 = .ok (mkSybilReply c emitted))
    (hpass : (validateSybilOutput (o.sybilJudge 0)).pass = true)
    (hc0 : 0 ≤ c) (hc1 : c ≤ 100)
    (hmem : emitted ∈ (["green", "yellow", "orange", "red"] : List String)) :
    (getField (fullMAGISybilAnalysis q loc env o).sybil "psychoPassColor" =
        some (.str "green") ↔ 75 ≤ c) ∧
    (getField (fullMAGISybilAnalysis q loc env o).sybil "psychoPassColor" =
        some (.str "yellow") ↔ 50 ≤ c ∧ c < 75) ∧
    (getField (fullMAGISybilAnalysis q loc env o).sybil "psychoPassColor" =
        some (.str "orange") ↔ 25 ≤ c ∧ c < 50) ∧
    (getField (fullMAGISybilAnalysis q loc env o).sybil "psychoPassColor" =
        some (.str "red") ↔ c < 25) := by
  have hmem' : emitted = "green" ∨ emitted = "yellow" ∨ emitted = "orange" ∨
      emitted = "red" := by simpa using hmem
  have hne : emitted ≠ "" := by
    rcases hmem' with h | h | h | h <;> subst h <;> decide
  have hcont : (["green", "yellow", "orange", "red"] : List String).contains emitted
      = true := by simpa using hmem
  have hs := struct_mkSybilReply c emitted hne hcont
  have hloop := sybil_acceptFirst (o.sybilGen (magiTranscript q loc env o))
    o.sybilJudge _ _ (hgen (magiTranscript q loc env o)) hs hpass
  have hsyb : (fullMAGISybilAnalysis q loc env o).sybil =
      mkSybilReply c (expectedColor c) := by
    simp [fullMAGISybilAnalysis, sybilOutcome, hloop]
  have hcol : getField (mkSybilReply c (expectedColor c)) "psychoPassColor" =
      some (.str (expectedColor c)) := rfl
  rw [hsyb, hcol]
  simp [expectedColor_eq_green, expectedColor_eq_yellow, expectedColor_eq_orange,
    expectedColor_eq_red]

/-- Claim C3 witness: coefficient 62 with an emitted `orange` label is
auto-corrected so that the returned color is `yellow` exactly as the
thresholds dictate. -/
theorem claim3_witness :
    (0 : Int) ≤ 62 ∧ (62 : Int) ≤ 100 ∧
    ("orange" ∈ (["green", "yellow", "orange", "red"] : List String)) ∧
    (getField (fullMAGISybilAnalysis "Assess evacuation risk" none none oracle62).sybil
        "psychoPassColor" = some (.str "yellow") ↔ (50 ≤ (62 : Int) ∧ (62 : Int) < 75)) :=
  ⟨by decide, by decide, by decide,
   (claim3_color_thresholds "Assess evacuation risk" none none oracle62 62 "orange"
     (fun s => rfl) rfl (by decide) (by decide) (by decide)).2.1⟩

/-- Claim C7: for every input and every oracle behaviour the analysis
returns a complete, well-formed result: the verdict always carries a
numeric safety coefficient, a color among the four labels that matches the
coefficient's thresholds, and an array of scenarios (totality of the
embedding models the source's never-throw guarantee; the error list is the
only degradation signal). -/
theorem claim7_always_complete (q : String) (loc : Option String)
    (env : Option EnvContext) (o : MAGIOracle) :
    ∃ c xs,
      getField (fullMAGISybilAnalysis q loc env o).sybil "safetyCoefficient" =
        some (.num c) ∧
      getField (fullMAGISybilAnalysis q loc env o).sybil "psychoPassColor" =
        some (.str (expectedColor c)) ∧
      expectedColor c ∈ (["green", "yellow", "orange", "red"] : List String) ∧
      getField (fullMAGISybilAnalysis q loc env o).sybil "scenarios" =
        some (.arr xs) := by
  obtain ⟨c, xs, h1, h2, h3⟩ :=
    sybilLoop_wellformed (o.sybilGen (magiTranscript q loc env o)) o.sybilJudge
  exact ⟨c, xs, h1, h2, expectedColor_mem c, h3⟩

theorem sybil_reach_final (gen : Nat → Except String JVal)
    (judge : Nat → Except Unit JVal)
    (hc0 : sybilContinues gen judge 0) (hc1 : sybilContinues gen judge 1) :
    ∃ cur, sybilLoop gen judge = sybilLoopAux gen judge 1 2 cur := by
  obtain ⟨c1, h1⟩ := sybil_step gen judge 2 0 FALLBACK_SYBIL (by decide) hc0
  obtain ⟨c2, h2⟩ := sybil_step gen judge 1 1 c1 (by decide) hc1
  refine ⟨c2, ?_⟩
  have hstart : sybilLoop gen judge = sybilLoopAux gen judge (2 + 1) 0 FALLBACK_SYBIL := rfl
  rw [hstart, h1]
  exact h2

/-- Claim C1 (amended): when the first two sybil attempts fail and the
final attempt ends in an unrecoverable transport/parse error or a failed
structural check, the returned verdict is exactly `FALLBACK_SYBIL` and
exactly one exhaustion error string is appended after the per-core errors;
when the final attempt parses and passes the structural check but is
rejected by the judge, the returned verdict is that final auto-corrected
verdict — not the fallback — again with exactly one appended error
string. -/
theorem claim1_sybil_exhaustion (q : String) (loc : Option String)
    (env : Option EnvContext) (o : MAGIOracle)
    (hc0 : ∀ s, sybilContinues (o.sybilGen s) o.sybilJudge 0)
    (hc1 : ∀ s, sybilContinues (o.sybilGen s) o.sybilJudge 1) :
    (∀ msg, (∀ s, o.sybilGen s 2 = .error msg) →
      (fullMAGISybilAnalysis q loc env o).sybil = FALLBACK_SYBIL ∧
      (fullMAGISybilAnalysis q loc env o).errors =
        pushIfTruthy (casperOutcome q loc env o).error ++
        pushIfTruthy (balthasarOutcome q loc env o).error ++
        pushIfTruthy (melchiorOutcome q loc env o).error ++
        ["Sybil synthesis error after " ++ toString 3 ++ " attempts: " ++ msg]) ∧
    (∀ j msg, (∀ s, o.sybilGen s 2 = .ok j) →
      sybilStructAndCorrect j = .error msg →
      (fullMAGISybilAnalysis q loc env o).sybil = FALLBACK_SYBIL ∧
      (fullMAGISybilAnalysis q loc env o).errors =
        pushIfTruthy (casperOutcome q loc env o).error ++
        pushIfTruthy (balthasarOutcome q loc env o).error ++
        pushIfTruthy (melchiorOutcome q loc env o).error ++
        ["Sybil synthesis error after " ++ toString 3 ++ " attempts: " ++ msg]) ∧
    (∀ j j', (∀ s, o.sybilGen s 2 = .ok j) →
      sybilStructAndCorrect j = .ok j' →
      (validateSybilOutput (o.sybilJudge 2)).pass = false →
      (fullMAGISybilAnalysis q loc env o).sybil = j' ∧
      (fullMAGISybilAnalysis q loc env o).errors =
        pushIfTruthy (casperOutcome q loc env o).error ++
        pushIfTruthy (balthasarOutcome q loc env o).error ++
        pushIfTruthy (melchiorOutcome q loc env o).error ++
        ["Sybil synthesis used after " ++ toString 3 ++ " attempts (issues: " ++
         joinIssues ((validateSybilOutput (o.sybilJudge 2)).issues) ++ ")"]) := by
  obtain ⟨cur, hr⟩ := sybil_reach_final (o.sybilGen (magiTranscript q loc env o))
    o.sybilJudge (hc0 _) (hc1 _)
  refine ⟨?_, ?_, ?_⟩
  · intro msg hmsg
    have hout : sybilOutcome q loc env o =
        (FALLBACK_SYBIL,
         ["Sybil synthesis error after " ++ toString 3 ++ " attempts: " ++ msg]) := by
      show sybilLoop (o.sybilGen (magiTranscript q loc env o)) o.sybilJudge = _
      rw [hr]
      exact sybil_final_transport _ _ 0 cur msg (hmsg _)
    exact ⟨by simp [fullMAGISybilAnalysis, hout],
           by simp [fullMAGISybilAnalysis, hout]⟩
  · intro j msg hj hs
    have hout : sybilOutcome q loc env o =
        (FALLBACK_SYBIL,
         ["Sybil synthesis error after " ++ toString 3 ++ " attempts: " ++ msg]) := by
      show sybilLoop (o.sybilGen (magiTranscript q loc env o)) o.sybilJudge = _
      rw [hr]
      exact sybil_final_struct _ _ 0 cur j msg (hj _) hs
    exact ⟨by simp [fullMAGISybilAnalysis, hout],
           by simp [fullMAGISybilAnalysis, hout]⟩
  · intro j j' hj hs hv
    have hout : sybilOutcome q loc env o =
        (j', ["Sybil synthesis used after " ++ toString 3 ++ " attempts (issues: " ++
              joinIssues ((validateSybilOutput (o.sybilJudge 2)).issues) ++ ")"]) := by
      show sybilLoop (o.sybilGen (magiTranscript q loc env o)) o.sybilJudge = _
      rw [hr]
      exact sybil_final_reject _ _ 0 cur j j' (hj _) hs hv
    exact ⟨by simp [fullMAGISybilAnalysis, hout],
           by simp [fullMAGISybilAnalysis, hout]⟩

/-- Claim C1 counterexample: a run whose sybil attempts all parse and pass
the structural check but are all rejected by the judge is an exhaustion
run (ceiling reached with no accepted verdict), records exactly one
exhaustion error, yet returns the last parsed verdict — not the fixed
fallback. -/
theorem claim1_counterexample :
    (fullMAGISybilAnalysis "Assess" none none cexOracle1).errors =
      ["Sybil synthesis used after 3 attempts (issues: unfaithful)"] ∧
    (fullMAGISybilAnalysis "Assess" none none cexOracle1).sybil ≠ FALLBACK_SYBIL := by
  refine ⟨rfl, ?_⟩
  intro hco
  have h80 : getField (fullMAGISybilAnalysis "Assess" none none cexOracle1).sybil
      "safetyCoefficient" = some (JVal.num 80) := rfl
  rw [hco] at h80
  have h2 : (some (JVal.num 50) : Option JVal) = some (JVal.num 80) := h80
  simp only [Option.some.injEq, JVal.num.injEq] at h2
  omega

/-- Claim C1 witness: a run whose sybil call throws on every attempt
returns exactly the fallback verdict plus one exhaustion error. -/
theorem claim1_witness :
    (fullMAGISybilAnalysis "q" none none wOracle1).sybil = FALLBACK_SYBIL ∧
    (fullMAGISybilAnalysis "q" none none wOracle1).errors =
      ["Sybil synthesis error after 3 attempts: boom"] := by
  have h := (claim1_sybil_exhaustion "q" none none wOracle1
    (fun s => Or.inl ⟨"boom", rfl⟩) (fun s => Or.inl ⟨"boom", rfl⟩)).1 "boom"
    (fun s => rfl)
  exact ⟨h.1, by rw [h.2]; rfl⟩

/-- Claim C6: when one perspective exhausts all retries (judge rejecting
every attempt) while the other two pass validation on their first
attempt and synthesis is accepted at once, the result still carries the
two passing perspectives' first-attempt texts unchanged, and the error
list is exactly the one entry of the exhausted perspective — per-core
errors appear in declaration order (CASPER, BALTHASAR, MELCHIOR),
followed by any synthesis error. -/
theorem claim6_isolation :
    (∀ (q : String) (loc : Option String) (env : Option EnvContext) (o : MAGIOracle)
       (tf : Nat → Option String → String) (bt mt : String) (sj sj' : JVal),
      (∀ s a fb, o.casperGen s a fb = .ok (tf a fb)) →
      (∀ a fb, firstCharIs '[' (tf a fb) = false) →
      (∀ a, (validateCoreOutput "CASPER" (o.casperJudge a)).pass = false) →
      (∀ s fb, o.balthasarGen s 0 fb = .ok bt) → firstCharIs '[' bt = false →
      (validateCoreOutput "BALTHASAR" (o.balthasarJudge 0)).pass = true →
      (∀ s fb, o.melchiorGen s 0 fb = .ok mt) → firstCharIs '[' mt = false →
      (validateCoreOutput "MELCHIOR" (o.melchiorJudge 0)).pass = true →
      (∀ s, o.sybilGen s 0 = .ok sj) → sybilStructAndCorrect sj = .ok sj' →
      (validateSybilOutput (o.sybilJudge 0)).pass = true →
      (fullMAGISybilAnalysis q loc env o).balthasar = bt ∧
      (fullMAGISybilAnalysis q loc env o).melchior = mt ∧
      (fullMAGISybilAnalysis q loc env o).errors =
        ["CASPER used after " ++ toString 3 ++ " attempts (last issues: " ++
         joinIssues ((validateCoreOutput "CASPER" (o.casperJudge 2)).issues) ++ ")"]) ∧
    (∀ (q : String) (loc : Option String) (env : Option EnvContext) (o : MAGIOracle)
       (tf : Nat → Option String → String) (ct mt : String) (sj sj' : JVal),
      (∀ s a fb, o.balthasarGen s a fb = .ok (tf a fb)) →
      (∀ a fb, firstCharIs '[' (tf a fb) = false) →
      (∀ a, (validateCoreOutput "BALTHASAR" (o.balthasarJudge a)).pass = false) →
      (∀ s fb, o.casperGen s 0 fb = .ok ct) → firstCharIs '[' ct = false →
      (validateCoreOutput "CASPER" (o.casperJudge 0)).pass = true →
      (∀ s fb, o.melchiorGen s 0 fb = .ok mt) → firstCharIs '[' mt = false →
      (validateCoreOutput "MELCHIOR" (o.melchiorJudge 0)).pass = true →
      (∀ s, o.sybilGen s 0 = .ok sj) → sybilStructAndCorrect sj = .ok sj' →
      (validateSybilOutput (o.sybilJudge 0)).pass = true →
      (fullMAGISybilAnalysis q loc env o).casper = ct ∧
      (fullMAGISybilAnalysis q loc env o).melchior = mt ∧
      (fullMAGISybilAnalysis q loc env o).errors =
        ["BALTHASAR used after " ++ toString 3 ++ " attempts (last issues: " ++
         joinIssues ((validateCoreOutput "BALTHASAR" (o.balthasarJudge 2)).issues) ++ ")"]) ∧
    (∀ (q : String) (loc : Option String) (env : Option EnvContext) (o : MAGIOracle)
       (tf : Nat → Option String → String) (ct bt : String) (sj sj' : JVal),
      (∀ s a fb, o.melchiorGen s a fb = .ok (tf a fb)) →
      (∀ a fb, firstCharIs '[' (tf a fb) = false) →
      (∀ a, (validateCoreOutput "MELCHIOR" (o.melchiorJudge a)).pass = false) →
      (∀ s fb, o.casperGen s 0 fb = .ok ct) → firstCharIs '[' ct = false →
      (validateCoreOutput "CASPER" (o.casperJudge 0)).pass = true →
      (∀ s fb, o.balthasarGen s 0 fb = .ok bt) → firstCharIs '[' bt = false →
      (validateCoreOutput "BALTHASAR" (o.balthasarJudge 0)).pass = true →
      (∀ s, o.sybilGen s 0 = .ok sj) → sybilStructAndCorrect sj = .ok sj' →
      (validateSybilOutput (o.sybilJudge 0)).pass = true →
      (fullMAGISybilAnalysis q loc env o).casper = ct ∧
      (fullMAGISybilAnalysis q loc env o).balthasar = bt ∧
      (fullMAGISybilAnalysis q loc env o).errors =
        ["MELCHIOR used after " ++ toString 3 ++ " attempts (last issues: " ++
         joinIssues ((validateCoreOutput "MELCHIOR" (o.melchiorJudge 2)).issues) ++ ")"]) := by
  refine ⟨?_, ?_, ?_⟩
  · intro q loc env o tf bt mt sj sj' hcg hcoff hcrej hbg hboff hbacc hmg hmoff hmacc
      hsg hss hsacc
    have hcg' : o.casperGen (buildFullQuery q loc env) = fun a fb => .ok (tf a fb) :=
      funext fun a => funext fun fb => hcg _ a fb
    have hcOut : casperOutcome q loc env o =
        { result := tf 2 (some ((validateCoreOutput "CASPER" (o.casperJudge 1)).feedback))
          attempts := 3
          error := some ("CASPER" ++ " used after " ++ toString 3 ++
            " attempts (last issues: " ++
            joinIssues ((validateCoreOutput "CASPER" (o.casperJudge 2)).issues) ++ ")") } := by
      rw [casperOutcome, hcg']
      exact core_rejectAll_outcome "CASPER" tf o.casperJudge hcoff hcrej
    have hbOut : balthasarOutcome q loc env o = { result := bt, attempts := 1, error := none } :=
      core_acceptFirst_outcome "BALTHASAR" _ _ bt (hbg _ none) hboff hbacc
    have hmOut : melchiorOutcome q loc env o = { result := mt, attempts := 1, error := none } :=
      core_acceptFirst_outcome "MELCHIOR" _ _ mt (hmg _ none) hmoff hmacc
    have hsOut : sybilOutcome q loc env o = (sj', []) :=
      sybil_acceptFirst _ _ _ _ (hsg _) hss hsacc
    refine ⟨by simp [fullMAGISybilAnalysis, hbOut], by simp [fullMAGISybilAnalysis, hmOut], ?_⟩
    have hne : ("CASPER used after " ++ toString 3 ++ " attempts (last issues: " ++
        joinIssues ((validateCoreOutput "CASPER" (o.casperJudge 2)).issues) ++ ")" : String) ≠ "" := by
      apply append_ne_empty
      apply append_ne_empty
      decide
    simp [fullMAGISybilAnalysis, hcOut, hbOut, hmOut, hsOut, pushIfTruthy, hne]
  · intro q loc env o tf ct mt sj sj' hbg hboff hbrej hcg hcoff hcacc hmg hmoff hmacc
      hsg hss hsacc
    have hbg' : o.balthasarGen (buildFullQuery q loc env) = fun a fb => .ok (tf a fb) :=
      funext fun a => funext fun fb => hbg _ a fb
    have hbOut : balthasarOutcome q loc env o =
        { result := tf 2 (some ((validateCoreOutput "BALTHASAR" (o.balthasarJudge 1)).feedback))
          attempts := 3
          error := some ("BALTHASAR" ++ " used after " ++ toString 3 ++
            " attempts (last issues: " ++
            joinIssues ((validateCoreOutput "BALTHASAR" (o.balthasarJudge 2)).issues) ++ ")") } := by
      rw [balthasarOutcome, hbg']
      exact core_rejectAll_outcome "BALTHASAR" tf o.balthasarJudge hboff hbrej
    have hcOut : casperOutcome q loc env o = { result := ct, attempts := 1, error := none } :=
      core_acceptFirst_outcome "CASPER" _ _ ct (hcg _ none) hcoff hcacc
    have hmOut : melchiorOutcome q loc env o = { result := mt, attempts := 1, error := none } :=
      core_acceptFirst_outcome "MELCHIOR" _ _ mt (hmg _ none) hmoff hmacc
    have hsOut : sybilOutcome q loc env o = (sj', []) :=
      sybil_acceptFirst _ _ _ _ (hsg _) hss hsacc
    refine ⟨by simp [fullMAGISybilAnalysis, hcOut], by simp [fullMAGISybilAnalysis, hmOut], ?_⟩
    have hne : ("BALTHASAR used after " ++ toString 3 ++ " attempts (last issues: " ++
        joinIssues ((validateCoreOutput "BALTHASAR" (o.balthasarJudge 2)).issues) ++ ")" : String) ≠ "" := by
      apply append_ne_empty
      apply append_ne_empty
      decide
    simp [fullMAGISybilAnalysis, hcOut, hbOut, hmOut, hsOut, pushIfTruthy, hne]
  · intro q loc env o tf ct bt sj sj' hmg hmoff hmrej hcg hcoff hcacc hbg hboff hbacc
      hsg hss hsacc
    have hmg' : o.melchiorGen (buildFullQuery q loc env) = fun a fb => .ok (tf a fb) :=
      funext fun a => funext fun fb => hmg _ a fb
    have hmOut : melchiorOutcome q loc env o =
        { result := tf 2 (some ((validateCoreOutput "MELCHIOR" (o.melchiorJudge 1)).feedback))
          attempts := 3
          error := some ("MELCHIOR" ++ " used after " ++ toString 3 ++
            " attempts (last issues: " ++
            joinIssues ((validateCoreOutput "MELCHIOR" (o.melchiorJudge 2)).issues) ++ ")") } := by
      rw [melchiorOutcome, hmg']
      exact core_rejectAll_outcome "MELCHIOR" tf o.melchiorJudge hmoff hmrej
    have hcOut : casperOutcome q loc env o = { result := ct, attempts := 1, error := none } :=
      core_acceptFirst_outcome "CASPER" _ _ ct (hcg _ none) hcoff hcacc
    have hbOut : balthasarOutcome q loc env o = { result := bt, attempts := 1, error := none } :=
      core_acceptFirst_outcome "BALTHASAR" _ _ bt (hbg _ none) hboff hbacc
    have hsOut : sybilOutcome q loc env o = (sj', []) :=
      sybil_acceptFirst _ _ _ _ (hsg _) hss hsacc
    refine ⟨by simp [fullMAGISybilAnalysis, hcOut], by simp [fullMAGISybilAnalysis, hbOut], ?_⟩
    have hne : ("MELCHIOR used after " ++ toString 3 ++ " attempts (last issues: " ++
        joinIssues ((validateCoreOutput "MELCHIOR" (o.melchiorJudge 2)).issues) ++ ")" : String) ≠ "" := by
      apply append_ne_empty
      apply append_ne_empty
      decide
    simp [fullMAGISybilAnalysis, hcOut, hbOut, hmOut, hsOut, pushIfTruthy, hne]

theorem firstCharIs_append (c : Char) (s t : String)
    (h : firstCharIs c s = true) : firstCharIs c (s ++ t) = true := by
  unfold firstCharIs at h ⊢
  rw [String.data_append]
  cases hd : s.data with
  | nil => rw [hd] at h; simp at h
  | cons x l =>
      rw [hd] at h
      simp at h
      simp [h]

theorem lastCharIs_append (c : Char) (s t : String)
    (h : lastCharIs c t = true) : lastCharIs c (s ++ t) = true := by
  unfold lastCharIs at h ⊢
  rw [String.data_append, List.getLast?_append_of_ne_nil]
  · exact h
  · intro hnil
    rw [hnil] at h
    simp at h

theorem firesLine_first (f : FiresCtx) : firstCharIs '[' (firesLine f) = true := by
  unfold firesLine
  repeat apply firstCharIs_append
  decide

theorem firesLine_last (f : FiresCtx) : lastCharIs ']' (firesLine f) = true := by
  unfold firesLine
  apply lastCharIs_append
  decide

theorem airQualityLine_first (a : AirQualityCtx) :
    firstCharIs '[' (airQualityLine a) = true := by
  unfold airQualityLine
  repeat apply firstCharIs_append
  decide

theorem airQualityLine_last (a : AirQualityCtx) :
    lastCharIs ']' (airQualityLine a) = true := by
  unfold airQualityLine
  apply lastCharIs_append
  decide

theorem webcamsLine_first (w : WebcamsCtx) : firstCharIs '[' (webcamsLine w) = true := by
  unfold webcamsLine
  repeat apply firstCharIs_append
  decide

theorem webcamsLine_last (w : WebcamsCtx) : lastCharIs ']' (webcamsLine w) = true := by
  unfold webcamsLine
  apply lastCharIs_append
  decide

theorem locationLine_first (l : String) :
    firstCharIs '[' ("[Location context: " ++ l ++ "]") = true := by
  repeat apply firstCharIs_append
  decide

theorem locationLine_last (l : String) :
    lastCharIs ']' ("[Location context: " ++ l ++ "]") = true := by
  apply lastCharIs_append
  decide

/-- Claim C9 (amended): prompt-prefix construction is a pure function in
which each present sub-field of the code's environmental context — fires,
air quality, webcams — and a truthy location each contribute exactly one
bracketed prefix line, in a fixed template order independent of which
sub-fields are present, followed by the raw query, all joined with
blank-line separation. -/
theorem claim9_prompt_construction (q : String) (loc : Option String)
    (env : Option EnvContext) :
    fullQueryParts q loc env =
      (List.filterMap id [locationLine loc, (envFires env).map firesLine,
        (envAirQuality env).map airQualityLine,
        (envWebcams env).map webcamsLine]) ++ [q] ∧
    (fullQueryParts q loc env).length =
      countOpt (locationLine loc) + countOpt (envFires env) +
        countOpt (envAirQuality env) + countOpt (envWebcams env) + 1 ∧
    (fullQueryParts q loc env).getLast? = some q ∧
    (∀ p ∈ (fullQueryParts q loc env).dropLast,
      firstCharIs '[' p = true ∧ lastCharIs ']' p = true) ∧
    buildFullQuery q loc env =
      String.intercalate "\n\n" (fullQueryParts q loc env) := by
  rcases env with _ | ⟨f, a, w⟩
  all_goals try rcases f with _ | f
  all_goals try rcases a with _ | a
  all_goals try rcases w with _ | w
  all_goals rcases loc with _ | l
  all_goals try by_cases hl : l = ""
  all_goals simp_all [fullQueryParts, buildFullQuery, locationLine, envFires,
    envAirQuality, envWebcams, countOpt, firesLine_first, firesLine_last,
    airQualityLine_first, airQualityLine_last, webcamsLine_first, webcamsLine_last,
    locationLine_first, locationLine_last]

/-- Claim C9 counterexample: no reading of the code's environmental
context can realize the claimed construction — the spec-level context has
five sub-fields (including curated-conflict and real-time-conflict
summaries), so a location-less context with all five present demands five
prefix parts plus the query (six parts), while the code's builder
(part_003 lines 436-448) never produces more than three environmental
lines (at most five parts with a location, four without). -/
theorem claim9_counterexample :
    ¬ ∃ f : SpecEnvContext → Option EnvContext,
        ∀ (q : String) (loc : Option String) (s : SpecEnvContext),
          (fullQueryParts q loc (f s)).length = specPartsCount loc s := by
  rintro ⟨f, hf⟩
  have h6 := hf "q" none specFullCtx
  have hspec : specPartsCount none specFullCtx = 6 := rfl
  have hle : (fullQueryParts "q" none (f specFullCtx)).length ≤ 5 := by
    rcases f specFullCtx with _ | ⟨ff, aa, ww⟩
    · simp [fullQueryParts, envFires, envAirQuality, envWebcams, locationLine]
    · rcases ff with _ | ff <;> rcases aa with _ | aa <;> rcases ww with _ | ww <;>
        simp [fullQueryParts, envFires, envAirQuality, envWebcams, locationLine]
  omega

/-- Claim C6 witness: CASPER exhausts while BALTHASAR and MELCHIOR pass
first try; their texts survive unchanged and the error list is exactly
CASPER's single entry. -/
theorem claim6_witness :
    (fullMAGISybilAnalysis "Assess" none none c6Oracle).balthasar = "Humanitarian briefing" ∧
    (fullMAGISybilAnalysis "Assess" none none c6Oracle).melchior = "Pattern scan" ∧
    (fullMAGISybilAnalysis "Assess" none none c6Oracle).errors =
      ["CASPER used after 3 attempts (last issues: off-topic)"] := by
  have h := claim6_isolation.1 "Assess" none none c6Oracle
    (fun _ _ => "Deep analysis") "Humanitarian briefing" "Pattern scan"
    (mkSybilReply 70 "yellow") (mkSybilReply 70 "yellow")
    (fun s a fb => rfl) (fun a fb => rfl) (fun a => rfl)
    (fun s fb => rfl) rfl rfl
    (fun s fb => rfl) rfl rfl
    (fun s => rfl) rfl rfl
  exact ⟨h.1, h.2.1, by rw [h.2.2]; rfl⟩

end MagiSybil
